import Mathlib

/-!
Shallow embedding of the github-actions-mcp-server repository
(`src/index.ts` and `src/operations/actions.ts`), together with
spec-modelled definitions for the parts of the code base (the
`common/errors.ts` and `common/utils.ts` modules) whose sources are not
available: the error classifier, the owner/repo validators and the URL
builder. Each spec-modelled definition is marked as such in its doc
comment.
-/

namespace GhActionsMcp

/-! ## A model of parsed YAML / JSON-like JavaScript values

`js-yaml`'s `load` returns an arbitrary JavaScript value; we model such
values as an inductive type. Objects are ordered key-value lists, which
is how both `js-yaml` builds them and `Object.entries` reads them back. -/

inductive Yaml where
  | null
  | bool (b : Bool)
  | num (n : Int)
  | str (s : String)
  | arr (xs : List Yaml)
  | map (es : List (String × Yaml))
deriving Repr

/-- A JavaScript object literal, as an ordered key-value list. -/
abbrev JsObject := List (String × Yaml)

/-- JavaScript truthiness of a value (`null`/`false`/`0`/`""` are falsy;
objects and arrays are always truthy). -/
def jsTruthy : Yaml → Bool
  | .null => false
  | .bool b => b
  | .num n => n != 0
  | .str s => s != ""
  | .arr _ => true
  | .map _ => true

/-- JavaScript property access `v[k]`: `none` models `undefined`.
Property access on a non-object value yields `undefined`. -/
def getProp (v : Yaml) (k : String) : Option Yaml :=
  match v with
  | .map es => es.lookup k
  | _ => none

/-- `Object.entries(v)`: entries of an object in insertion order; an array
or string yields index-keyed entries; other primitives yield nothing. -/
def entriesOf (v : Yaml) : List (String × Yaml) :=
  match v with
  | .map es => es
  | .arr xs => (xs.enum).map (fun p => (Nat.repr p.1, p.2))
  | .str s => (s.data.enum).map (fun p => (Nat.repr p.1, Yaml.str (String.mk [p.2])))
  | _ => []

/-! ## The error taxonomy (`common/errors.ts` classes as used by `src/index.ts`)

`src/index.ts` imports the class hierarchy `GitHubError` (the base, here
the `generic` constructor) and its subclasses and dispatches on
`instanceof`; the fields read by `formatGitHubError` are `message`,
`response` (validation), `resetAt` (a `Date`, here epoch milliseconds),
`timeoutMs` and `errorCode`. -/

inductive GitHubError where
  | generic (message : String)
  | validation (message : String) (response : Option String)
  | resourceNotFound (message : String)
  | authentication (message : String)
  | permission (message : String)
  | rateLimit (message : String) (resetAt : Nat)
  | conflict (message : String)
  | timeout (message : String) (timeoutMs : Nat)
  | network (message : String) (errorCode : String)
deriving Repr, DecidableEq

/-- Left-pad the decimal rendering of `n` with zeros to `width` digits. -/
def padZeros (width : Nat) (n : Nat) : String :=
  let s := Nat.repr n
  String.mk (List.replicate (width - s.length) '0') ++ s

/-- Proleptic-Gregorian civil date `(year, month, day)` from a count of
days since 1970-01-01 (valid for non-negative day counts). -/
def civilFromDays (days : Nat) : Nat × Nat × Nat :=
  let z := days + 719468
  let era := z / 146097
  let doe := z % 146097
  let yoe := (doe - doe / 1460 + doe / 36524 - doe / 146096) / 365
  let y := yoe + era * 400
  let doy := doe - (365 * yoe + yoe / 4 - yoe / 100)
  let mp := (5 * doy + 2) / 153
  let d := doy - (153 * mp + 2) / 5 + 1
  let m := if mp < 10 then mp + 3 else mp - 9
  (if m ≤ 2 then y + 1 else y, m, d)

/-- JavaScript `Date.prototype.toISOString` on an epoch-milliseconds
timestamp: `YYYY-MM-DDTHH:mm:ss.sssZ` (UTC). -/
def toISOString (t : Nat) : String :=
  let ms := t % 1000
  let totalSecs := t / 1000
  let ss := totalSecs % 60
  let totalMins := totalSecs / 60
  let mins := totalMins % 60
  let totalHours := totalMins / 60
  let hh := totalHours % 24
  let days := totalHours / 24
  let c := civilFromDays days
  padZeros 4 c.1 ++ "-" ++ padZeros 2 c.2.1 ++ "-" ++ padZeros 2 c.2.2 ++ "T" ++
    padZeros 2 hh ++ ":" ++ padZeros 2 mins ++ ":" ++ padZeros 2 ss ++ "." ++
    padZeros 3 ms ++ "Z"

/-- `formatGitHubError` from `src/index.ts` (lines 119-144): the default
message is `GitHub API Error: <message>`, overridden by one branch per
subclass of `GitHubError` in the `instanceof` chain. -/
def formatGitHubError : GitHubError → String
  | .generic m => "GitHub API Error: " ++ m
  | .validation m r =>
      "Validation Error: " ++ m ++
        (match r with
         | some j => "\nDetails: " ++ j
         | none => "")
  | .resourceNotFound m => "Not Found: " ++ m
  | .authentication m => "Authentication Failed: " ++ m
  | .permission m => "Permission Denied: " ++ m
  | .rateLimit m t => "Rate Limit Exceeded: " ++ m ++ "\nResets at: " ++ toISOString t
  | .conflict m => "Conflict: " ++ m
  | .timeout m ms => "Timeout: " ++ m ++ "\nTimeout setting: " ++ Nat.repr ms ++ "ms"
  | .network m c => "Network Error: " ++ m ++ "\nError code: " ++ c

/-- The distinct human-readable variant markers `formatGitHubError` emits,
in the order of the source's branches (base class last). -/
def errorVariantMarkers : List String :=
  ["Validation Error:", "Not Found:", "Authentication Failed:",
   "Permission Denied:", "Rate Limit Exceeded:", "Conflict:",
   "Timeout:", "Network Error:", "GitHub API Error:"]

/-! ## The error classifier -/

/-- The nine error kinds of the taxonomy (spec §3). -/
inductive ErrorKind where
  | validation
  | resourceNotFound
  | authentication
  | permission
  | rateLimit
  | conflict
  | timeout
  | network
  | generic
deriving Repr, DecidableEq

/-- The abstract description of a failed outbound call: status code (absent
when no response arrived), response headers, response body, and the two
exception-type indicators. -/
structure FailedCall where
  statusCode : Option Nat
  headers : List (String × String)
  body : String
  transportFailure : Bool
  elapsedExceededDeadline : Bool
deriving Repr, DecidableEq

/-- The rate-limit reset header of a response, when present (GitHub sends
`x-ratelimit-reset` as epoch seconds). -/
def rateLimitResetHeader (headers : List (String × String)) : Option String :=
  headers.lookup "x-ratelimit-reset"

/-- Modelled from the spec: the error classifier of `common/utils.ts` /
`common/errors.ts`, whose source is not under `src/`; §4.1's decision
policy, priority order, first match wins. Carried payloads are omitted:
the claims concern the kind assignment. -/
def classify (c : FailedCall) : ErrorKind :=
  if c.transportFailure then .network
  else if c.elapsedExceededDeadline then .timeout
  else
    match c.statusCode with
    | some s =>
        if s = 401 then .authentication
        else if (s = 403 || s = 429) && (rateLimitResetHeader c.headers).isSome then .rateLimit
        else if s = 403 then .permission
        else if s = 404 then .resourceNotFound
        else if s = 409 then .conflict
        else .generic
    | none => .generic

/-! ## Request validators -/

/-- A character of GitHub's allowed identifier set `[A-Za-z0-9-_.]`. -/
def isValidIdChar (c : Char) : Bool :=
  c.isAlpha || c.isDigit || c == '-' || c == '_' || c == '.'

/-- Modelled from the spec: the owner/org name validator of
`common/utils.ts` (not under `src/`): fails with `Validation` if the
string is empty, exceeds GitHub's maximum identifier length (39
characters for owners/organizations), or contains a character outside
`[A-Za-z0-9-_.]`; otherwise returns the name unchanged. -/
def validateOwnerName (s : String) : Except GitHubError String :=
  if s = "" || s.length > 39 || !(s.data.all isValidIdChar) then
    .error (.validation ("Invalid owner name: " ++ s) none)
  else
    .ok s

/-- Modelled from the spec: the repository name validator of
`common/utils.ts` (not under `src/`): same character class and emptiness
check as the owner validator, with GitHub's 100-character maximum for
repository names; applied independently of the owner validator. -/
def validateRepositoryName (s : String) : Except GitHubError String :=
  if s = "" || s.length > 100 || !(s.data.all isValidIdChar) then
    .error (.validation ("Invalid repository name: " ++ s) none)
  else
    .ok s

/-- Whether a fallible computation failed with a `Validation` error. -/
def failsValidation {α : Type} : Except GitHubError α → Bool
  | .error (.validation _ _) => true
  | _ => false

/-! ## URL construction -/

/-- Uppercase hexadecimal digit. -/
def hexDigit (n : Nat) : Char :=
  if n < 10 then Char.ofNat (48 + n) else Char.ofNat (55 + n)

/-- JavaScript `encodeURIComponent`: unreserved characters
`A-Za-z0-9 - _ . ! ~ * ' ( )` pass through; every other character is
percent-encoded byte-wise from its UTF-8 encoding. -/
def encodeURIComponent (s : String) : String :=
  String.join (s.data.map (fun c =>
    if c.isAlpha || c.isDigit ||
       c == '-' || c == '_' || c == '.' || c == '!' || c == '~' ||
       c == '*' || c == '\x27' || c == '(' || c == ')' then
      String.mk [c]
    else
      String.join (((String.mk [c]).toUTF8.toList).map (fun b =>
        String.mk ['%', hexDigit (b.toNat / 16), hexDigit (b.toNat % 16)]))))

/-- The defined query parameters of a parameter list: entries whose value
is present, in order. -/
def definedParams (params : List (String × Option String)) : List (String × String) :=
  params.filterMap (fun p => p.2.map (fun v => (p.1, v)))

/-- Modelled from the spec: `buildUrl` of `common/utils.ts` (not under
`src/`): appends the defined parameters of `params` to `base` as a query
string, leaving the base URL untouched when every parameter is absent. -/
def buildUrl (base : String) (params : List (String × Option String)) : String :=
  match definedParams params with
  | [] => base
  | ps => base ++ "?" ++ String.intercalate "&" (ps.map (fun p => p.1 ++ "=" ++ p.2))

/-! ## Request construction (`src/operations/actions.ts`)

Each operation validates its `owner` and `repo` parameters, then builds
the outbound request (URL, method, optional JSON body). We split every
operation into a pure request builder, so the outbound request is a
first-class value, and a runner that hands the request to an HTTP oracle
standing for `githubRequest`. -/

/-- The body of a `workflow_dispatch` POST: `{ ref, inputs? }`; `none`
models the `inputs` field being absent from the object. -/
structure DispatchBody where
  ref : String
  inputs : Option (List (String × String))
deriving Repr, DecidableEq

/-- An outbound HTTP request. -/
structure Request where
  url : String
  method : String
  body : Option DispatchBody
deriving Repr, DecidableEq

/-- The repository base URL `https://api.github.com/repos/<owner>/<repo>`. -/
def repoBase (owner repo : String) : String :=
  "https://api.github.com/repos/" ++ owner ++ "/" ++ repo

/-- `listWorkflows` (actions.ts lines 105-121): validate, then GET
`/actions/workflows` with optional `page`/`per_page`. -/
def listWorkflowsRequest (owner repo : String) (page perPage : Option Nat) :
    Except GitHubError Request := do
  let owner ← validateOwnerName owner
  let repo ← validateRepositoryName repo
  .ok { url := buildUrl (repoBase owner repo ++ "/actions/workflows")
                 [("page", page.map Nat.repr), ("per_page", perPage.map Nat.repr)],
        method := "GET", body := none }

/-- `getWorkflow` (actions.ts lines 124-135). -/
def getWorkflowRequest (owner repo workflowId : String) : Except GitHubError Request := do
  let owner ← validateOwnerName owner
  let repo ← validateRepositoryName repo
  .ok { url := repoBase owner repo ++ "/actions/workflows/" ++ workflowId,
        method := "GET", body := none }

/-- `getWorkflowUsage` (actions.ts lines 138-149). -/
def getWorkflowUsageRequest (owner repo workflowId : String) : Except GitHubError Request := do
  let owner ← validateOwnerName owner
  let repo ← validateRepositoryName repo
  .ok { url := repoBase owner repo ++ "/actions/workflows/" ++ workflowId ++ "/timing",
        method := "GET", body := none }

/-- The options record of `listWorkflowRuns` (actions.ts lines 155-166). -/
structure RunsOptions where
  workflowId : Option String := none
  actor : Option String := none
  branch : Option String := none
  event : Option String := none
  status : Option String := none
  created : Option String := none
  excludePullRequests : Option Bool := none
  checkSuiteId : Option Nat := none
  page : Option Nat := none
  perPage : Option Nat := none
deriving Repr, DecidableEq

/-- The query-parameter list of `listWorkflowRuns` (actions.ts lines
178-188), in source order; `exclude_pull_requests` carries the literal
string `"true"` exactly when the flag is set to `true` (the source's
`options.excludePullRequests ? "true" : undefined`). -/
def runsQueryParams (o : RunsOptions) : List (String × Option String) :=
  [("actor", o.actor),
   ("branch", o.branch),
   ("event", o.event),
   ("status", o.status),
   ("created", o.created),
   ("exclude_pull_requests", if o.excludePullRequests = some true then some "true" else none),
   ("check_suite_id", o.checkSuiteId.map Nat.repr),
   ("page", o.page.map Nat.repr),
   ("per_page", o.perPage.map Nat.repr)]

/-- `listWorkflowRuns` (actions.ts lines 152-192): validate, pick the
per-workflow or whole-repository runs URL (`options.workflowId` truthy,
so an empty string falls to the repository URL), then append the query
parameters. -/
def listWorkflowRunsRequest (owner repo : String) (o : RunsOptions) :
    Except GitHubError Request := do
  let owner ← validateOwnerName owner
  let repo ← validateRepositoryName repo
  let base :=
    match o.workflowId with
    | some w => if w != "" then repoBase owner repo ++ "/actions/workflows/" ++ w ++ "/runs"
                else repoBase owner repo ++ "/actions/runs"
    | none => repoBase owner repo ++ "/actions/runs"
  .ok { url := buildUrl base (runsQueryParams o), method := "GET", body := none }

/-- `getWorkflowRun` (actions.ts lines 195-206). -/
def getWorkflowRunRequest (owner repo : String) (runId : Nat) : Except GitHubError Request := do
  let owner ← validateOwnerName owner
  let repo ← validateRepositoryName repo
  .ok { url := repoBase owner repo ++ "/actions/runs/" ++ Nat.repr runId,
        method := "GET", body := none }

/-- `getWorkflowRunJobs` (actions.ts lines 209-228). -/
def getWorkflowRunJobsRequest (owner repo : String) (runId : Nat)
    (filter : Option String) (page perPage : Option Nat) : Except GitHubError Request := do
  let owner ← validateOwnerName owner
  let repo ← validateRepositoryName repo
  .ok { url := buildUrl (repoBase owner repo ++ "/actions/runs/" ++ Nat.repr runId ++ "/jobs")
                 [("filter", filter), ("page", page.map Nat.repr),
                  ("per_page", perPage.map Nat.repr)],
        method := "GET", body := none }

/-- The dispatch body of `triggerWorkflow` (actions.ts lines 243-250):
`{ ref }`, with `inputs` added only when the mapping is present and
non-empty (`inputs && Object.keys(inputs).length > 0`). -/
def triggerBody (ref : String) (inputs : Option (List (String × String))) : DispatchBody :=
  { ref := ref,
    inputs :=
      match inputs with
      | some l => if l.length > 0 then some l else none
      | none => none }

/-- `triggerWorkflow`'s request (actions.ts lines 231-255): validate, then
POST the dispatch body to `/actions/workflows/<id>/dispatches`. -/
def triggerWorkflowRequest (owner repo workflowId ref : String)
    (inputs : Option (List (String × String))) : Except GitHubError Request := do
  let owner ← validateOwnerName owner
  let repo ← validateRepositoryName repo
  .ok { url := repoBase owner repo ++ "/actions/workflows/" ++ workflowId ++ "/dispatches",
        method := "POST", body := some (triggerBody ref inputs) }

/-- `cancelWorkflowRun`'s request (actions.ts lines 262-271). -/
def cancelWorkflowRunRequest (owner repo : String) (runId : Nat) : Except GitHubError Request := do
  let owner ← validateOwnerName owner
  let repo ← validateRepositoryName repo
  .ok { url := repoBase owner repo ++ "/actions/runs/" ++ Nat.repr runId ++ "/cancel",
        method := "POST", body := none }

/-- `rerunWorkflowRun`'s request (actions.ts lines 278-287). -/
def rerunWorkflowRunRequest (owner repo : String) (runId : Nat) : Except GitHubError Request := do
  let owner ← validateOwnerName owner
  let repo ← validateRepositoryName repo
  .ok { url := repoBase owner repo ++ "/actions/runs/" ++ Nat.repr runId ++ "/rerun",
        method := "POST", body := none }

/-- `getWorkflowYaml`'s request (actions.ts lines 294-306): validate, then
GET the raw contents of `.github/workflows/<workflowId>`, the path
percent-encoded as one component. -/
def getWorkflowYamlRequest (owner repo workflowId : String) : Except GitHubError Request := do
  let owner ← validateOwnerName owner
  let repo ← validateRepositoryName repo
  .ok { url := repoBase owner repo ++ "/contents/" ++
                 encodeURIComponent (".github/workflows/" ++ workflowId),
        method := "GET", body := none }

/-- `getWorkflowDispatchInputs` (actions.ts lines 311-317) issues the same
request as `getWorkflowYaml`, through which its parameters are validated. -/
def getWorkflowDispatchInputsRequest (owner repo workflowId : String) :
    Except GitHubError Request :=
  getWorkflowYamlRequest owner repo workflowId

/-! ## The POST operations' results -/

/-- The `{ success, message }` record the mutating operations return. -/
structure OpResult where
  success : Bool
  message : String
deriving Repr, DecidableEq

/-- An HTTP oracle standing for `githubRequest`: either a classified
raised error or a response value. -/
abbrev HttpOracle := Request → Except GitHubError Yaml

/-- `triggerWorkflow` (actions.ts lines 231-259): build and issue the
request; on success return `{ success: true, message: ... }`
unconditionally (the endpoint returns no data). -/
def triggerWorkflow (oracle : HttpOracle) (owner repo workflowId ref : String)
    (inputs : Option (List (String × String))) : Except GitHubError OpResult := do
  let req ← triggerWorkflowRequest owner repo workflowId ref inputs
  let _ ← oracle req
  .ok { success := true, message := "Workflow " ++ workflowId ++ " triggered on " ++ ref }

/-- `cancelWorkflowRun` (actions.ts lines 262-275). -/
def cancelWorkflowRun (oracle : HttpOracle) (owner repo : String) (runId : Nat) :
    Except GitHubError OpResult := do
  let req ← cancelWorkflowRunRequest owner repo runId
  let _ ← oracle req
  .ok { success := true, message := "Workflow run " ++ Nat.repr runId ++ " cancelled" }

/-- `rerunWorkflowRun` (actions.ts lines 278-291). -/
def rerunWorkflowRun (oracle : HttpOracle) (owner repo : String) (runId : Nat) :
    Except GitHubError OpResult := do
  let req ← rerunWorkflowRunRequest owner repo runId
  let _ ← oracle req
  .ok { success := true, message := "Workflow run " ++ Nat.repr runId ++ " restarted" }

/-! ## Startup credential resolution (`src/index.ts` lines 91-103) -/

/-- The CLI token flag: the value of the first `process.argv` entry
starting with `--token=`, with that marker stripped
(`arg.substring('--token='.length)`). `startsWith` and `substring` are
modelled on the character list; the marker is ASCII, so its length is 8
in both character and UTF-16 units. -/
def cliTokenOf (argv : List String) : Option String :=
  (argv.find? (fun a => "--token=".data.isPrefixOf a.data)).map
    (fun a => String.mk (a.data.drop 8))

/-- JavaScript `a || b` on possibly-undefined strings: an empty string is
falsy, so it also falls through to `b`. -/
def jsOrString (a b : Option String) : Option String :=
  match a with
  | some s => if s = "" then b else some s
  | none => b

/-- `GITHUB_TOKEN = cliToken || process.env.GITHUB_PERSONAL_ACCESS_TOKEN`
(index.ts line 99). -/
def resolveGitHubToken (argv : List String) (env : Option String) : Option String :=
  jsOrString (cliTokenOf argv) env

/-- The startup gate (index.ts lines 99-103): a falsy resolved token
(`undefined` or empty) makes the process exit with code 1 before the
server is constructed; otherwise startup proceeds with the token. -/
def startupToken (argv : List String) (env : Option String) : Except Nat String :=
  match resolveGitHubToken argv env with
  | some t => if t = "" then .error 1 else .ok t
  | none => .error 1

/-! ## Workflow YAML dispatch-input extraction (actions.ts lines 311-345)

`getWorkflowDispatchInputs` fetches the YAML text, parses it with
`js-yaml` (an external library, modelled as the `Except`-valued parse
outcome handed to the extractor: `yaml.load` may also return `undefined`,
hence the `Option`), and then works on the parsed document. -/

/-- The guarded lookup `doc && doc.on && doc.on.workflow_dispatch &&
doc.on.workflow_dispatch.inputs` (actions.ts lines 327-332): the `inputs`
variable ends up assigned exactly when every step of the chain, the found
inputs value included, is truthy. The source's second branch
(`doc.on['workflow_dispatch']`, bracket notation) accesses the same
property and can never fire after the first, so the chain is embedded
once. -/
def lookupDispatchInputs (doc : Option Yaml) : Option Yaml := do
  let d ← doc
  if !jsTruthy d then none else
  let onV ← getProp d "on"
  if !jsTruthy onV then none else
  let wd ← getProp onV "workflow_dispatch"
  if !jsTruthy wd then none else
  let inputs ← getProp wd "inputs"
  if !jsTruthy inputs then none else
  some inputs

/-- One returned input record, `{ name, ...meta }` (actions.ts lines
337-343): for an object `meta`, JavaScript object spread puts `name`
first and lets a `name` key inside `meta` override its value in place;
for any other `meta` the record is `{ name }` alone. -/
def mkInputRecord (name : String) (meta : Yaml) : Yaml :=
  match meta with
  | .map es =>
      .map (("name", (es.lookup "name").getD (.str name)) ::
        es.filter (fun p => p.1 != "name"))
  | _ => .map [("name", .str name)]

/-- The records of `Object.entries(inputs).map(...)` (actions.ts lines
337-343), one per declared input in source order. -/
def dispatchInputRecords (inputs : Yaml) : List Yaml :=
  (entriesOf inputs).map (fun p => mkInputRecord p.1 p.2)

/-- The `{error: "No workflow_dispatch inputs found in workflow YAML."}`
result object (actions.ts line 334). -/
def noInputsResult : JsObject :=
  [("error", .str "No workflow_dispatch inputs found in workflow YAML.")]

/-- The `{error: "Failed to parse workflow YAML", details}` result object
(actions.ts line 323). -/
def parseFailureResult (details : String) : JsObject :=
  [("error", .str "Failed to parse workflow YAML"), ("details", .str details)]

/-- `getWorkflowDispatchInputs` after the YAML text is fetched (actions.ts
lines 318-344), as a total function of the parse outcome: the `try/catch`
around `yaml.load` turns a parse failure into the structured
`parseFailureResult` return value instead of propagating it, a missing or
falsy inputs value yields `noInputsResult`, and otherwise the input
records are returned under the `inputs` key. -/
def getWorkflowDispatchInputsResult (parsed : Except String (Option Yaml)) : JsObject :=
  match parsed with
  | .error e => parseFailureResult e
  | .ok doc =>
      match lookupDispatchInputs doc with
      | none => noInputsResult
      | some inputs => [("inputs", .arr (dispatchInputRecords inputs))]

/-! ## Helper lemmas -/

/-- A computation fails with `Validation` exactly when it is an `error`
holding the `validation` variant. -/
theorem failsValidation_iff {α : Type} {x : Except GitHubError α} :
    failsValidation x = true ↔ ∃ m r, x = .error (.validation m r) := by
  cases x with
  | error e => cases e <;> simp [failsValidation]
  | ok a => simp [failsValidation]

/-- The owner validator either accepts the string unchanged or fails with
its `Validation` error. -/
theorem validateOwnerName_cases (s : String) :
    validateOwnerName s = .ok s ∨
      validateOwnerName s = .error (.validation ("Invalid owner name: " ++ s) none) := by
  unfold validateOwnerName
  split <;> simp

/-- The repository validator either accepts the string unchanged or fails
with its `Validation` error. -/
theorem validateRepositoryName_cases (s : String) :
    validateRepositoryName s = .ok s ∨
      validateRepositoryName s = .error (.validation ("Invalid repository name: " ++ s) none) := by
  unfold validateRepositoryName
  split <;> simp

/-- A request builder that binds the two validators fails with
`Validation` whenever either validator does. -/
theorem validated_bind_fails {α : Type} (owner repo : String)
    (k : String → String → Except GitHubError α)
    (h : failsValidation (validateOwnerName owner) = true ∨
         failsValidation (validateRepositoryName repo) = true) :
    failsValidation (do
      let o ← validateOwnerName owner
      let r ← validateRepositoryName repo
      k o r) = true := by
  rcases h with h | h
  · obtain ⟨m, r, hx⟩ := failsValidation_iff.mp h
    simp [hx, Bind.bind, Except.bind, failsValidation]
  · obtain ⟨m, r, hx⟩ := failsValidation_iff.mp h
    rcases validateOwnerName_cases owner with ho | ho <;>
      simp [ho, hx, Bind.bind, Except.bind, failsValidation]

theorem definedParams_cons_some (k v : String) (ps : List (String × Option String)) :
    definedParams ((k, some v) :: ps) = (k, v) :: definedParams ps := by
  simp [definedParams]

theorem definedParams_cons_none (k : String) (ps : List (String × Option String)) :
    definedParams ((k, none) :: ps) = definedParams ps := by
  simp [definedParams]

theorem lookup_definedParams_ne (k k' : String) (v : Option String)
    (ps : List (String × Option String)) (h : (k == k') = false) :
    List.lookup k (definedParams ((k', v) :: ps)) = List.lookup k (definedParams ps) := by
  cases v with
  | none => rw [definedParams_cons_none]
  | some x => rw [definedParams_cons_some]; simp [List.lookup, h]

theorem lookup_definedParams_eq (k : String) (v : Option String)
    (ps : List (String × Option String)) :
    List.lookup k (definedParams ((k, v) :: ps)) =
      v.or (List.lookup k (definedParams ps)) := by
  cases v with
  | none => rw [definedParams_cons_none]; simp [Option.or]
  | some x => rw [definedParams_cons_some]; simp [List.lookup, Option.or]

/-- A validated-request operation that returns a fixed record after its
oracle call yields that record whenever it returns at all. -/
theorem oracle_bind_ok {req : Except GitHubError Request} {oracle : HttpOracle}
    {res r : OpResult}
    (h : (do
      let rq ← req
      let _ ← oracle rq
      Except.ok res) = .ok r) : r = res := by
  cases req with
  | error e => simp [Bind.bind, Except.bind] at h
  | ok rq =>
    simp only [Bind.bind, Except.bind] at h
    cases horacle : oracle rq with
    | error e => rw [horacle] at h; simp at h
    | ok y =>
      rw [horacle] at h
      simp at h
      exact h.symm

/-! ## Claims -/

/-- C2: `formatGitHubError` gives every error variant its own distinct
human-readable marker followed by the error's message; the `RateLimit`
message additionally carries the reset time rendered as an ISO-8601
timestamp, the `Timeout` message additionally carries the configured
timeout in milliseconds, and the base `GitHub API Error:` message is the
only fallback. -/
theorem formatGitHubError_spec :
    (∀ m, formatGitHubError (.generic m) = "GitHub API Error: " ++ m) ∧
    (∀ m, formatGitHubError (.validation m none) = "Validation Error: " ++ m) ∧
    (∀ m j, formatGitHubError (.validation m (some j)) =
        "Validation Error: " ++ m ++ "\nDetails: " ++ j) ∧
    (∀ m, formatGitHubError (.resourceNotFound m) = "Not Found: " ++ m) ∧
    (∀ m, formatGitHubError (.authentication m) = "Authentication Failed: " ++ m) ∧
    (∀ m, formatGitHubError (.permission m) = "Permission Denied: " ++ m) ∧
    (∀ m t, formatGitHubError (.rateLimit m t) =
        "Rate Limit Exceeded: " ++ m ++ "\nResets at: " ++ toISOString t) ∧
    (∀ m ms, formatGitHubError (.timeout m ms) =
        "Timeout: " ++ m ++ "\nTimeout setting: " ++ Nat.repr ms ++ "ms") ∧
    (∀ m, formatGitHubError (.conflict m) = "Conflict: " ++ m) ∧
    (∀ m c, formatGitHubError (.network m c) =
        "Network Error: " ++ m ++ "\nError code: " ++ c) ∧
    errorVariantMarkers.Nodup :=
  ⟨fun _ => rfl, fun m => by simp [formatGitHubError],
   fun m j => by simp [formatGitHubError, String.append_assoc], fun _ => rfl,
   fun _ => rfl, fun _ => rfl, fun _ _ => rfl, fun _ _ => rfl, fun _ => rfl,
   fun _ _ => rfl, by decide⟩

/-- C7: on any YAML parse failure, `getWorkflowDispatchInputs` returns the
structured object `{error: "Failed to parse workflow YAML", details}` —
the `try/catch` downgrades the parse failure to an ordinary return
value, so nothing is raised. -/
theorem dispatch_inputs_parse_failure_spec (msg : String) :
    getWorkflowDispatchInputsResult (.error msg) =
      [("error", .str "Failed to parse workflow YAML"), ("details", .str msg)] :=
  rfl

/-- C6: a document that parses but yields no (truthy) `workflow_dispatch`
inputs under the `on` key produces the explicit no-inputs result object,
an ordinary return value distinct from the parse-failure result. -/
theorem dispatch_inputs_absent_spec :
    (∀ doc, lookupDispatchInputs doc = none →
        getWorkflowDispatchInputsResult (.ok doc) =
          [("error", .str "No workflow_dispatch inputs found in workflow YAML.")]) ∧
    (∀ d, ([("error", Yaml.str "No workflow_dispatch inputs found in workflow YAML.")] :
        JsObject) ≠ parseFailureResult d) := by
  constructor
  · intro doc h
    simp [getWorkflowDispatchInputsResult, h, noInputsResult]
  · intro d h
    simp [parseFailureResult] at h

/-- Witness for C6: a parsed document with no `on` key yields the
no-inputs result. -/
theorem dispatch_inputs_absent_witness :
    lookupDispatchInputs (some (.map [("name", .str "CI")])) = none ∧
    getWorkflowDispatchInputsResult (.ok (some (.map [("name", .str "CI")]))) =
      [("error", .str "No workflow_dispatch inputs found in workflow YAML.")] ∧
    ([("error", Yaml.str "No workflow_dispatch inputs found in workflow YAML.")] :
        JsObject) ≠ parseFailureResult "boom" :=
  ⟨rfl, dispatch_inputs_absent_spec.1 _ rfl, dispatch_inputs_absent_spec.2 "boom"⟩

/-- C5: when the parsed document carries an object of declared inputs
under `on.workflow_dispatch.inputs`, the result is one record per
declared input in source order, each carrying the input's name and the
metadata fields passed through unchanged; in particular the spec's
`environment` example produces exactly its record. -/
theorem dispatch_inputs_extraction_spec :
    (∀ doc entries, lookupDispatchInputs doc = some (.map entries) →
        getWorkflowDispatchInputsResult (.ok doc) =
          [("inputs", .arr (entries.map (fun p => mkInputRecord p.1 p.2)))]) ∧
    getWorkflowDispatchInputsResult (.ok (some (.map [("on", .map [("workflow_dispatch",
        .map [("inputs", .map [("environment", .map [("description", .str "env"),
          ("required", .bool true), ("default", .str "prod")])])])])]))) =
      [("inputs", .arr [.map [("name", .str "environment"), ("description", .str "env"),
        ("required", .bool true), ("default", .str "prod")]])] := by
  constructor
  · intro doc entries h
    simp [getWorkflowDispatchInputsResult, h, dispatchInputRecords, entriesOf]
  · rfl

/-- Witness for C5: the general extraction statement applied to the spec's
`environment` example document. -/
theorem dispatch_inputs_extraction_witness :
    getWorkflowDispatchInputsResult (.ok (some (.map [("on", .map [("workflow_dispatch",
        .map [("inputs", .map [("environment", .map [("description", .str "env"),
          ("required", .bool true), ("default", .str "prod")])])])])]))) =
      [("inputs", .arr ([("environment", Yaml.map [("description", Yaml.str "env"),
          ("required", Yaml.bool true), ("default", Yaml.str "prod")])].map
            (fun p => mkInputRecord p.1 p.2)))] :=
  dispatch_inputs_extraction_spec.1 _ _ rfl

/-- C1: the classifier is a total function — every failed-call description
receives exactly one `ErrorKind` — and on the status-code/rate-limit
header matrix it follows the priority table: 401 is `Authentication`
regardless of headers; 403 and 429 with a rate-limit reset header are
`RateLimit`; 403 without one is `Permission`; 429 without one falls to
`Generic`; 404 is `ResourceNotFound`; 409 is `Conflict`; every other
non-2xx status is `Generic`. -/
theorem classify_priority_table :
    (∀ c : FailedCall, ∃! k, classify c = k) ∧
    (∀ headers body, classify ⟨some 401, headers, body, false, false⟩ = .authentication) ∧
    (∀ headers body, (rateLimitResetHeader headers).isSome = true →
        classify ⟨some 403, headers, body, false, false⟩ = .rateLimit ∧
        classify ⟨some 429, headers, body, false, false⟩ = .rateLimit) ∧
    (∀ headers body, (rateLimitResetHeader headers).isSome = false →
        classify ⟨some 403, headers, body, false, false⟩ = .permission ∧
        classify ⟨some 429, headers, body, false, false⟩ = .generic) ∧
    (∀ headers body, classify ⟨some 404, headers, body, false, false⟩ = .resourceNotFound) ∧
    (∀ headers body, classify ⟨some 409, headers, body, false, false⟩ = .conflict) ∧
    (∀ s headers body, ¬(200 ≤ s ∧ s ≤ 299) → s ∉ [401, 403, 404, 409, 429] →
        classify ⟨some s, headers, body, false, false⟩ = .generic) := by
  refine ⟨fun c => ⟨classify c, rfl, fun y h => h.symm⟩, ?_, ?_, ?_, ?_, ?_, ?_⟩
  · intro headers body
    simp [classify]
  · intro headers body h
    constructor <;> simp [classify, h]
  · intro headers body h
    constructor <;> simp [classify, h]
  · intro headers body
    simp [classify]
  · intro headers body
    simp [classify]
  · intro s headers body _ hmem
    simp only [List.mem_cons, List.not_mem_nil, or_false, not_or] at hmem
    obtain ⟨h1, h3, h4, h9, h29⟩ := hmem
    simp [classify, h1, h3, h4, h9, h29]

/-- Witness for C1: the priority table evaluated with a concrete
rate-limit header present and absent, and at status 500. -/
theorem classify_priority_table_witness :
    classify ⟨some 401, [], "", false, false⟩ = .authentication ∧
    classify ⟨some 403, [("x-ratelimit-reset", "1700000000")], "", false, false⟩ = .rateLimit ∧
    classify ⟨some 429, [("x-ratelimit-reset", "1700000000")], "", false, false⟩ = .rateLimit ∧
    classify ⟨some 403, [], "", false, false⟩ = .permission ∧
    classify ⟨some 429, [], "", false, false⟩ = .generic ∧
    classify ⟨some 404, [], "", false, false⟩ = .resourceNotFound ∧
    classify ⟨some 409, [], "", false, false⟩ = .conflict ∧
    classify ⟨some 500, [], "", false, false⟩ = .generic :=
  ⟨classify_priority_table.2.1 [] "",
   (classify_priority_table.2.2.1 [("x-ratelimit-reset", "1700000000")] "" (by decide)).1,
   (classify_priority_table.2.2.1 [("x-ratelimit-reset", "1700000000")] "" (by decide)).2,
   (classify_priority_table.2.2.2.1 [] "" (by decide)).1,
   (classify_priority_table.2.2.2.1 [] "" (by decide)).2,
   classify_priority_table.2.2.2.2.1 [] "",
   classify_priority_table.2.2.2.2.2.1 [] "",
   classify_priority_table.2.2.2.2.2.2 500 [] "" (by decide) (by decide)⟩

/-- C3: each name validator fails with a `Validation` error exactly when
the string is empty, exceeds GitHub's maximum identifier length, or
contains a character outside `[A-Za-z0-9-_.]`; both validators reject the
empty string, any string containing `/`, any string containing a space
and any string of 200 or more characters, and accept `"octocat"` and
`"my-org_2.bot"`; and every operation's request construction binds both
validators first, so an invalid owner or repository name fails it with a
`Validation` error before any request exists to send. -/
theorem name_validators_spec :
    (∀ s, failsValidation (validateOwnerName s) = true ↔
        s = "" ∨ 39 < s.length ∨ ∃ c ∈ s.data, isValidIdChar c = false) ∧
    (∀ s, failsValidation (validateRepositoryName s) = true ↔
        s = "" ∨ 100 < s.length ∨ ∃ c ∈ s.data, isValidIdChar c = false) ∧
    (∀ s, '/' ∈ s.data →
        failsValidation (validateOwnerName s) = true ∧
        failsValidation (validateRepositoryName s) = true) ∧
    (∀ s, ' ' ∈ s.data →
        failsValidation (validateOwnerName s) = true ∧
        failsValidation (validateRepositoryName s) = true) ∧
    (∀ s : String, 200 ≤ s.length →
        failsValidation (validateOwnerName s) = true ∧
        failsValidation (validateRepositoryName s) = true) ∧
    (failsValidation (validateOwnerName "") = true ∧
     failsValidation (validateRepositoryName "") = true) ∧
    (validateOwnerName "octocat" = .ok "octocat" ∧
     validateRepositoryName "octocat" = .ok "octocat" ∧
     validateOwnerName "my-org_2.bot" = .ok "my-org_2.bot" ∧
     validateRepositoryName "my-org_2.bot" = .ok "my-org_2.bot") ∧
    (∀ owner repo, failsValidation (validateOwnerName owner) = true ∨
        failsValidation (validateRepositoryName repo) = true →
      (∀ page perPage, failsValidation (listWorkflowsRequest owner repo page perPage) = true) ∧
      (∀ wid, failsValidation (getWorkflowRequest owner repo wid) = true) ∧
      (∀ wid, failsValidation (getWorkflowUsageRequest owner repo wid) = true) ∧
      (∀ o, failsValidation (listWorkflowRunsRequest owner repo o) = true) ∧
      (∀ runId, failsValidation (getWorkflowRunRequest owner repo runId) = true) ∧
      (∀ runId filter page perPage,
        failsValidation (getWorkflowRunJobsRequest owner repo runId filter page perPage) = true) ∧
      (∀ wid ref inputs,
        failsValidation (triggerWorkflowRequest owner repo wid ref inputs) = true) ∧
      (∀ runId, failsValidation (cancelWorkflowRunRequest owner repo runId) = true) ∧
      (∀ runId, failsValidation (rerunWorkflowRunRequest owner repo runId) = true) ∧
      (∀ wid, failsValidation (getWorkflowYamlRequest owner repo wid) = true) ∧
      (∀ wid, failsValidation (getWorkflowDispatchInputsRequest owner repo wid) = true)) := by
  have hchar : ∀ s : String, (∃ c ∈ s.data, isValidIdChar c = false) ↔
      ¬(s.data.all isValidIdChar = true) := by
    intro s
    simp [List.all_eq_true]
  have howner : ∀ s, failsValidation (validateOwnerName s) = true ↔
      s = "" ∨ 39 < s.length ∨ ∃ c ∈ s.data, isValidIdChar c = false := by
    intro s
    unfold validateOwnerName
    rw [hchar]
    split
    case isTrue h =>
      simp only [failsValidation, true_iff]
      simpa [or_assoc] using h
    case isFalse h =>
      simp only [failsValidation, Bool.false_eq_true, false_iff]
      simpa [or_assoc] using h
  have hrepo : ∀ s, failsValidation (validateRepositoryName s) = true ↔
      s = "" ∨ 100 < s.length ∨ ∃ c ∈ s.data, isValidIdChar c = false := by
    intro s
    unfold validateRepositoryName
    rw [hchar]
    split
    case isTrue h =>
      simp only [failsValidation, true_iff]
      simpa [or_assoc] using h
    case isFalse h =>
      simp only [failsValidation, Bool.false_eq_true, false_iff]
      simpa [or_assoc] using h
  refine ⟨howner, hrepo, ?_, ?_, ?_, ?_, ?_, ?_⟩
  · intro s hs
    exact ⟨(howner s).mpr (.inr (.inr ⟨'/', hs, by decide⟩)),
           (hrepo s).mpr (.inr (.inr ⟨'/', hs, by decide⟩))⟩
  · intro s hs
    exact ⟨(howner s).mpr (.inr (.inr ⟨' ', hs, by decide⟩)),
           (hrepo s).mpr (.inr (.inr ⟨' ', hs, by decide⟩))⟩
  · intro s hs
    exact ⟨(howner s).mpr (.inr (.inl (by omega))),
           (hrepo s).mpr (.inr (.inl (by omega)))⟩
  · exact ⟨by decide, by decide⟩
  · exact ⟨rfl, rfl, rfl, rfl⟩
  · intro owner repo h
    exact ⟨fun _ _ => validated_bind_fails owner repo _ h,
           fun _ => validated_bind_fails owner repo _ h,
           fun _ => validated_bind_fails owner repo _ h,
           fun _ => validated_bind_fails owner repo _ h,
           fun _ => validated_bind_fails owner repo _ h,
           fun _ _ _ _ => validated_bind_fails owner repo _ h,
           fun _ _ _ => validated_bind_fails owner repo _ h,
           fun _ => validated_bind_fails owner repo _ h,
           fun _ => validated_bind_fails owner repo _ h,
           fun _ => validated_bind_fails owner repo _ h,
           fun _ => validated_bind_fails owner repo _ h⟩

set_option maxRecDepth 4096 in
/-- Witness for C3: the spec's reject/accept vectors evaluated concretely,
and a slash-bearing owner name failing `listWorkflows`'s request
construction with a `Validation` error. -/
theorem name_validators_witness :
    failsValidation (validateOwnerName "a/b") = true ∧
    failsValidation (validateRepositoryName "has space") = true ∧
    failsValidation (validateOwnerName (String.mk (List.replicate 200 'a'))) = true ∧
    validateOwnerName "octocat" = .ok "octocat" ∧
    validateRepositoryName "my-org_2.bot" = .ok "my-org_2.bot" ∧
    failsValidation (listWorkflowsRequest "a/b" "repo" none none) = true ∧
    failsValidation (triggerWorkflowRequest "octocat" "bad repo" "ci.yml" "main" none) = true :=
  ⟨(name_validators_spec.2.2.1 "a/b" (by decide)).1,
   (name_validators_spec.2.2.2.1 "has space" (by decide)).2,
   (name_validators_spec.2.2.2.2.1 (String.mk (List.replicate 200 'a')) (by decide)).1,
   name_validators_spec.2.2.2.2.2.2.1.1,
   name_validators_spec.2.2.2.2.2.2.1.2.2.2,
   (name_validators_spec.2.2.2.2.2.2.2 "a/b" "repo"
      (.inl (name_validators_spec.2.2.1 "a/b" (by decide)).1)).1 none none,
   (name_validators_spec.2.2.2.2.2.2.2 "octocat" "bad repo"
      (.inr (name_validators_spec.2.2.2.1 "bad repo" (by decide)).2)).2.2.2.2.2.2.1
        "ci.yml" "main" none⟩

/-- C4: `triggerWorkflow` omits the `inputs` field of the dispatch body
entirely when the inputs mapping is absent or empty, and passes a
non-empty mapping through unchanged next to `ref`; the built request
carries exactly this body. -/
theorem trigger_inputs_omission_spec :
    (∀ ref, triggerBody ref none = { ref := ref, inputs := none }) ∧
    (∀ ref, triggerBody ref (some []) = { ref := ref, inputs := none }) ∧
    (∀ ref l, l ≠ [] → triggerBody ref (some l) = { ref := ref, inputs := some l }) ∧
    (∀ owner repo wid ref inputs req,
        triggerWorkflowRequest owner repo wid ref inputs = .ok req →
        req.body = some (triggerBody ref inputs)) := by
  refine ⟨fun _ => rfl, fun _ => rfl, ?_, ?_⟩
  · intro ref l hl
    cases l with
    | nil => exact absurd rfl hl
    | cons a t => simp [triggerBody]
  · intro owner repo wid ref inputs req h
    unfold triggerWorkflowRequest at h
    rcases validateOwnerName_cases owner with ho | ho <;>
      rcases validateRepositoryName_cases repo with hr | hr <;>
        simp [ho, hr, Bind.bind, Except.bind] at h
    rw [← h]

/-- Witness for C4: a non-empty mapping is passed through, and the request
built for it carries the body with the mapping; an empty mapping's body
omits `inputs`. -/
theorem trigger_inputs_omission_witness :
    triggerBody "main" (some [("environment", "prod")]) =
      { ref := "main", inputs := some [("environment", "prod")] } ∧
    triggerBody "main" (some []) = { ref := "main", inputs := none } ∧
    ({ url := repoBase "octocat" "hello" ++ "/actions/workflows/ci.yml/dispatches",
       method := "POST",
       body := some (triggerBody "main" (some [("environment", "prod")])) } : Request).body =
      some (triggerBody "main" (some [("environment", "prod")])) :=
  ⟨trigger_inputs_omission_spec.2.2.1 "main" [("environment", "prod")] (by simp),
   trigger_inputs_omission_spec.2.1 "main",
   trigger_inputs_omission_spec.2.2.2 "octocat" "hello" "ci.yml" "main"
     (some [("environment", "prod")]) _ rfl⟩

/-- Counterexample for C8: with the flag `--token=` present (carrying the
empty value) and the environment variable set, resolution does not take
the flag's value — the falsy empty string makes `cliToken || env` fall
through to the environment variable, so the fallback happens even though
the flag is not absent. -/
theorem token_resolution_counterexample :
    cliTokenOf ["--token="] = some "" ∧
    resolveGitHubToken ["--token="] (some "ENVTOKEN") = some "ENVTOKEN" ∧
    startupToken ["--token="] (some "ENVTOKEN") = .ok "ENVTOKEN" ∧
    some "ENVTOKEN" ≠ some "" := by
  refine ⟨by decide, rfl, rfl, by simp⟩

/-- C8 (amended): the credential is the first `--token=<value>` flag's
value when that value is non-empty; the environment variable is used when
the flag is absent or its value is empty; and when the resolved
credential is absent or empty the startup gate exits with the non-zero
code 1 before the server is constructed. -/
theorem token_resolution_amended :
    (∀ argv env t, cliTokenOf argv = some t → t ≠ "" → startupToken argv env = .ok t) ∧
    (∀ argv env, cliTokenOf argv = none ∨ cliTokenOf argv = some "" →
        (∀ e, env = some e → e ≠ "" → startupToken argv env = .ok e) ∧
        (env = none ∨ env = some "" → startupToken argv env = .error 1)) ∧
    (∀ argv, (∀ a ∈ argv, "--token=".data.isPrefixOf a.data = false) →
        cliTokenOf argv = none) := by
  refine ⟨?_, ?_, ?_⟩
  · intro argv env t h ht
    simp [startupToken, resolveGitHubToken, jsOrString, h, ht]
  · intro argv env h
    constructor
    · intro e he hne
      rcases h with h | h <;>
        simp [startupToken, resolveGitHubToken, jsOrString, h, he, hne]
    · intro he
      rcases h with h | h <;> rcases he with he | he <;>
        simp [startupToken, resolveGitHubToken, jsOrString, h, he]
  · intro argv h
    unfold cliTokenOf
    have hf : List.find? (fun a => "--token=".data.isPrefixOf a.data) argv = none :=
      List.find?_eq_none.mpr (fun a ha => by simp [h a ha])
    rw [hf]
    rfl

/-- Witness for C8 (amended): a non-empty flag wins over the environment;
with only an empty-valued flag the environment is used; with neither the
startup gate exits 1. -/
theorem token_resolution_amended_witness :
    startupToken ["node", "--token=abc"] (some "envtok") = .ok "abc" ∧
    startupToken ["--token="] (some "envtok") = .ok "envtok" ∧
    startupToken [] none = .error 1 ∧
    cliTokenOf ["node", "server.js"] = none :=
  ⟨token_resolution_amended.1 ["node", "--token=abc"] (some "envtok") "abc" (by decide)
     (by simp),
   (token_resolution_amended.2.1 ["--token="] (some "envtok") (.inr (by decide))).1 "envtok"
     rfl (by simp),
   (token_resolution_amended.2.1 [] none (.inl rfl)).2 (.inl rfl),
   token_resolution_amended.2.2 ["node", "server.js"] (by decide)⟩

/-- C9: in `listWorkflowRuns`, `page` and `perPage` map to the `page` and
`per_page` query parameters of the outbound URL, and
`excludePullRequests` maps to `exclude_pull_requests` with the literal
string `"true"` exactly when it is set to `true` — otherwise no such
parameter appears among the URL's defined query parameters. -/
theorem runs_query_params_spec (o : RunsOptions) :
    List.lookup "page" (definedParams (runsQueryParams o)) = o.page.map Nat.repr ∧
    List.lookup "per_page" (definedParams (runsQueryParams o)) = o.perPage.map Nat.repr ∧
    List.lookup "exclude_pull_requests" (definedParams (runsQueryParams o)) =
      (if o.excludePullRequests = some true then some "true" else none) := by
  refine ⟨?_, ?_, ?_⟩
  · show List.lookup "page" (definedParams (runsQueryParams o)) = o.page.map Nat.repr
    unfold runsQueryParams
    rw [lookup_definedParams_ne _ _ _ _ (by decide),
        lookup_definedParams_ne _ _ _ _ (by decide),
        lookup_definedParams_ne _ _ _ _ (by decide),
        lookup_definedParams_ne _ _ _ _ (by decide),
        lookup_definedParams_ne _ _ _ _ (by decide),
        lookup_definedParams_ne _ _ _ _ (by decide),
        lookup_definedParams_ne _ _ _ _ (by decide),
        lookup_definedParams_eq,
        lookup_definedParams_ne _ _ _ _ (by decide)]
    simp [definedParams, Option.or]
    cases o.page <;> simp
  · unfold runsQueryParams
    rw [lookup_definedParams_ne _ _ _ _ (by decide),
        lookup_definedParams_ne _ _ _ _ (by decide),
        lookup_definedParams_ne _ _ _ _ (by decide),
        lookup_definedParams_ne _ _ _ _ (by decide),
        lookup_definedParams_ne _ _ _ _ (by decide),
        lookup_definedParams_ne _ _ _ _ (by decide),
        lookup_definedParams_ne _ _ _ _ (by decide),
        lookup_definedParams_ne _ _ _ _ (by decide),
        lookup_definedParams_eq]
    simp [definedParams, Option.or]
    cases o.perPage <;> simp
  · unfold runsQueryParams
    rw [lookup_definedParams_ne _ _ _ _ (by decide),
        lookup_definedParams_ne _ _ _ _ (by decide),
        lookup_definedParams_ne _ _ _ _ (by decide),
        lookup_definedParams_ne _ _ _ _ (by decide),
        lookup_definedParams_ne _ _ _ _ (by decide),
        lookup_definedParams_eq,
        lookup_definedParams_ne _ _ _ _ (by decide),
        lookup_definedParams_ne _ _ _ _ (by decide),
        lookup_definedParams_ne _ _ _ _ (by decide)]
    simp only [definedParams, List.filterMap_nil, List.lookup_nil]
    split <;> simp [Option.or]

/-- C10: whenever `triggerWorkflow`, `cancelWorkflowRun` or
`rerunWorkflowRun` completes without a raised error, the returned record
has `success = true` unconditionally and the message interpolating the
workflow id and ref, or the run id; failure is only ever the raised
classified error of the `Except`. -/
theorem mutation_success_results_spec :
    (∀ oracle owner repo wid ref inputs r,
        triggerWorkflow oracle owner repo wid ref inputs = .ok r →
        r.success = true ∧ r.message = "Workflow " ++ wid ++ " triggered on " ++ ref) ∧
    (∀ oracle owner repo runId r,
        cancelWorkflowRun oracle owner repo runId = .ok r →
        r.success = true ∧ r.message = "Workflow run " ++ Nat.repr runId ++ " cancelled") ∧
    (∀ oracle owner repo runId r,
        rerunWorkflowRun oracle owner repo runId = .ok r →
        r.success = true ∧ r.message = "Workflow run " ++ Nat.repr runId ++ " restarted") := by
  refine ⟨?_, ?_, ?_⟩
  · intro oracle owner repo wid ref inputs r h
    unfold triggerWorkflow at h
    rw [oracle_bind_ok h]
    exact ⟨rfl, rfl⟩
  · intro oracle owner repo runId r h
    unfold cancelWorkflowRun at h
    rw [oracle_bind_ok h]
    exact ⟨rfl, rfl⟩
  · intro oracle owner repo runId r h
    unfold rerunWorkflowRun at h
    rw [oracle_bind_ok h]
    exact ⟨rfl, rfl⟩

/-- Witness for C10: under an oracle that accepts every request, the three
mutating operations return `success = true` with the interpolated
messages. -/
theorem mutation_success_results_witness :
    (({ success := true, message := "Workflow ci.yml triggered on main" } : OpResult).success =
        true ∧
      ({ success := true, message := "Workflow ci.yml triggered on main" } : OpResult).message =
        "Workflow " ++ "ci.yml" ++ " triggered on " ++ "main") ∧
    (({ success := true, message := "Workflow run 7 cancelled" } : OpResult).success = true ∧
      ({ success := true, message := "Workflow run 7 cancelled" } : OpResult).message =
        "Workflow run " ++ Nat.repr 7 ++ " cancelled") ∧
    (({ success := true, message := "Workflow run 7 restarted" } : OpResult).success = true ∧
      ({ success := true, message := "Workflow run 7 restarted" } : OpResult).message =
        "Workflow run " ++ Nat.repr 7 ++ " restarted") :=
  ⟨mutation_success_results_spec.1 (fun _ => .ok .null) "octocat" "hello" "ci.yml" "main" none
      _ rfl,
   mutation_success_results_spec.2.1 (fun _ => .ok .null) "octocat" "hello" 7 _ rfl,
   mutation_success_results_spec.2.2 (fun _ => .ok .null) "octocat" "hello" 7 _ rfl⟩

end GhActionsMcp
